import Mathlib

/-!
Shallow embedding of the Enphase Envoy v7 driver
(src/drivers/enphase-envoy-v7/api.ts and device.ts).

Network interactions are modelled by passing the responses the remote
endpoints would return as explicit arguments; the mutable fields of the
TypeScript classes become explicit state records threaded through the
functions.  JavaScript `null`/`undefined` become `Option.none`, thrown
exceptions become `Except.error` carrying the error message (and, where
mutation before the throw matters, the state at the moment of the throw).
-/

/-- Whether an HTTP status counts as `response.ok` (node-fetch: 200-299). -/
def statusOk (status : Nat) : Bool := 200 ≤ status && status < 300

/-- Response of the cloud login endpoint `login/login.json`: HTTP status plus
the `session_id` field of the parsed JSON body. -/
structure LoginResponse where
  status : Nat
  session_id : String
deriving DecidableEq

def LoginResponse.ok (r : LoginResponse) : Bool := statusOk r.status

/-- Response of the cloud token-exchange endpoint `tokens`: HTTP status plus
the raw response body text (the bearer token). -/
structure TokenResponse where
  status : Nat
  text : String
deriving DecidableEq

def TokenResponse.ok (r : TokenResponse) : Bool := statusOk r.status

/-- Response of the gateway endpoint `auth/check_jwt`: HTTP status plus the
value of `headers.get("set-cookie")` (`none` when the header is absent). -/
structure JwtResponse where
  status : Nat
  setCookie : Option String
deriving DecidableEq

def JwtResponse.ok (r : JwtResponse) : Bool := statusOk r.status

/-- The three responses one run of `getAccessToken` consumes, in protocol
order: cloud login, cloud token exchange, gateway JWT check. -/
structure AuthResponses where
  login : LoginResponse
  token : TokenResponse
  jwt : JwtResponse
deriving DecidableEq

/-- The mutable fields of class `EnphaseEnvoyApi` (api.ts lines 15-21).
`address` is `Option` because the class compares it against `null`. -/
structure ClientState where
  address : Option String
  deviceSn : String
  username : String
  password : String
  accessToken : Option String
  sessionId : Option String
deriving DecidableEq

/-- Drop a pattern from the front of a character list; `none` when the list
does not start with the pattern. -/
def dropPat : List Char → List Char → Option (List Char)
  | [], rest => some rest
  | _ :: _, [] => none
  | p :: ps, c :: cs => if p = c then dropPat ps cs else none

/-- The lazy capture `(.*?);` of the regex at api.ts line 149: the shortest
run of non-newline characters followed by a semicolon. -/
def lazyCapture : List Char → Option (List Char)
  | [] => none
  | c :: cs =>
    if c = ';' then some []
    else if c = '\n' then none
    else (lazyCapture cs).map (fun v => c :: v)

/-- Leftmost match of the regex `sessionId=(.*?);` over a character list,
returning the capture group: at each starting position, try to read the
literal `sessionId=` and then the lazy capture; otherwise advance one
character. -/
def firstSessionIdMatch : List Char → Option (List Char)
  | [] => none
  | c :: cs =>
    match dropPat ("sessionId=".toList) (c :: cs) with
    | some rest =>
      match lazyCapture rest with
      | some v => some v
      | none => firstSessionIdMatch cs
    | none => firstSessionIdMatch cs

/-- `headers.get("set-cookie")?.match(/sessionId=(.*?);/)?.[1]` (api.ts line
149): `none` when the header is absent or the regex does not match. -/
def extractSessionId : Option String → Option String
  | none => none
  | some header => (firstSessionIdMatch header.toList).map String.mk

/-- Error message of `getEnphaseSessionId` (api.ts lines 94-98). -/
def loginFailedMsg : String :=
  "Failed to authenticate to Enphase - are your username and password correct?"

/-- Error message of both failure branches of `getAccessToken` (api.ts lines
128 and 151). -/
def tokenFailedMsg : String :=
  "An error occurred while retrieving an access token"

/-- Static `getEnphaseSessionId` (api.ts lines 81-103): returns the
`session_id` field of the login response, or throws when the login endpoint
did not answer 2xx. -/
def getEnphaseSessionId (r : LoginResponse) : Except String String :=
  if r.ok then Except.ok r.session_id else Except.error loginFailedMsg

/-- `getAccessToken` (api.ts lines 105-153).  Returns the call's outcome
(`.ok` or the thrown message) together with the client state when the call
ends: the source assigns `this.accessToken` as soon as the token exchange
succeeds (line 126), before the gateway JWT check runs, so a throw at the
JWT check (line 151) leaves that assignment in place.  On JWT-check success
the source assigns whatever the cookie regex produced, `undefined`
included (line 149). -/
def getAccessToken (st : ClientState) (r : AuthResponses) :
    Except String Unit × ClientState :=
  match getEnphaseSessionId r.login with
  | Except.error e => (Except.error e, st)
  | Except.ok _sessionId =>
    if r.token.ok then
      let st := { st with accessToken := some r.token.text }
      if r.jwt.ok then
        (Except.ok (), { st with sessionId := extractSessionId r.jwt.setCookie })
      else
        (Except.error tokenFailedMsg, st)
    else
      (Except.error tokenFailedMsg, st)

/-- A data response from the gateway, as far as `fetchApiEndpoint` inspects
it: its HTTP status. -/
structure DataResponse where
  status : Nat
deriving DecidableEq

/-- One network interaction of `fetchApiEndpoint`: a response, or a
transport-level failure carrying its message. -/
abbrev NetResult := Except String DataResponse

/-- What one `fetchApiEndpoint` call did: its result (the response returned,
or the thrown message), how many times `getAccessToken` ran, how many
requests went out, and the client state at the end. -/
structure FetchOutcome where
  result : Except String DataResponse
  authCalls : Nat
  fetchCalls : Nat
  finalState : ClientState

/-- String interpolation of a nullable field into an error message
(JavaScript renders `null` as "null"). -/
def showOpt : Option String → String
  | none => "null"
  | some s => s

/-- `fetchApiEndpoint(path, isRetry)` (api.ts lines 40-79), with the gateway's
successive responses to this path supplied as a list.  A status in 400-499 on
a first attempt triggers `getAccessToken` and a recursive retry with
`isRetry = true`; any other non-2xx status throws; a throw inside
`getAccessToken` propagates, so no retry happens then. -/
def fetchApiEndpointAux (st : ClientState) (auth : AuthResponses)
    (responses : List NetResult) (isRetry : Bool) : FetchOutcome :=
  if st.address.isNone then
    ⟨Except.error "Attempted to fetch data for an uninitialised Enphase device",
      0, 0, st⟩
  else
    match responses with
    | [] => ⟨Except.error "request failed", 0, 1, st⟩
    | Except.error e :: _ => ⟨Except.error e, 0, 1, st⟩
    | Except.ok response :: rest =>
      if 400 ≤ response.status && response.status < 500 && !isRetry then
        match getAccessToken st auth with
        | (Except.error e, st1) => ⟨Except.error e, 1, 1, st1⟩
        | (Except.ok _, st1) =>
          let o := fetchApiEndpointAux st1 auth rest true
          ⟨o.result, o.authCalls + 1, o.fetchCalls + 1, o.finalState⟩
      else if !(statusOk response.status) then
        ⟨Except.error ("An unknown error occurred while fetching inverter data:"
            ++ toString response.status ++ " and bearer: "
            ++ showOpt st.accessToken ++ " and sessionId: "
            ++ showOpt st.sessionId),
          0, 1, st⟩
      else
        ⟨Except.ok response, 0, 1, st⟩

/-- Entry point of `fetchApiEndpoint`: `isRetry` defaults to `false`. -/
def fetchApiEndpoint (st : ClientState) (auth : AuthResponses)
    (responses : List NetResult) : FetchOutcome :=
  fetchApiEndpointAux st auth responses false

/-! Telemetry reconciler (device.ts).  The three Session Client fetches a
poll may perform are supplied as a `PollEnv`: each is either the parsed
JSON payload or the message of the exception the fetch threw. -/

/-- `NET_CONSUMPTION_METER` (device.ts line 7). -/
def NET_CONSUMPTION_METER : String := "net-consumption"

/-- `PRODUCTION_METER` (device.ts line 8). -/
def PRODUCTION_METER : String := "production"

/-- One entry of the `ivp/meters` list, as far as `checkProduction` reads it. -/
structure Meter where
  eid : Nat
  measurementType : String
deriving DecidableEq

/-- One entry of the `ivp/meters/readings` list, as far as `checkProduction`
reads it.  `activePower` is a signed number. -/
structure MeterReading where
  eid : Nat
  activePower : Int
deriving DecidableEq

/-- One entry of the production report's `production` array. -/
structure ProductionEntry where
  wNow : Int
deriving DecidableEq

/-- The production report returned by `production.json`. -/
structure ProductionData where
  production : List ProductionEntry
deriving DecidableEq

/-- Outcomes of the three Session Client calls a poll may make. -/
structure PollEnv where
  meters : Except String (List Meter)
  productionData : Except String ProductionData
  meterReadings : Except String (List MeterReading)

/-- The device state `checkProduction` reads and writes: the four capability
values (absent until first set), availability, the message passed to
`setUnavailable`, and the log lines emitted. -/
structure DeviceState where
  meterPower : Option Int
  measurePower : Option Int
  consumptionPower : Option Int
  gridPower : Option Int
  available : Bool
  errorMessage : Option String
  logs : List String
deriving DecidableEq

/-- `this.homey.log(msg)`: append a log line. -/
def logMsg (st : DeviceState) (m : String) : DeviceState :=
  { st with logs := st.logs ++ [m] }

/-- `this.setAvailable()`. -/
def setAvailable (st : DeviceState) : DeviceState :=
  { st with available := true, errorMessage := none }

/-- `this.setUnavailable(msg)`. -/
def setUnavailable (st : DeviceState) (m : String) : DeviceState :=
  { st with available := false, errorMessage := some m }

/-- The inner `meterData.find(...)` / `meterReadingsData.find(...)` join of
device.ts lines 149-165: the first reading whose `eid` equals the `eid` of
the first meter of measurement type `t`.  When no such meter exists the
JavaScript compares each reading's `eid` against `undefined`, which is false
for every reading. -/
def findReading (t : String) (meterData : List Meter)
    (readings : List MeterReading) : Option MeterReading :=
  readings.find? (fun r =>
    match meterData.find? (fun m => m.measurementType == t) with
    | some m => r.eid == m.eid
    | none => false)

/-- `meterReadingsData.find(...)?.activePower || null` (device.ts lines
149-165): the matched reading's active power, except that `|| null` coerces
a falsy value — the number 0 — to `null`. -/
def activePowerOrNull (t : String) (meterData : List Meter)
    (readings : List MeterReading) : Option Int :=
  match findReading t meterData readings with
  | some r => if r.activePower == 0 then none else some r.activePower
  | none => none

/-- The diagnostic logged on the missing-join path (device.ts lines 182-184). -/
def missingJoinMsg : String :=
  "Envoy is metered but could not fetch either net-consumption or production values from meters"

/-- `isMetered` as computed at device.ts lines 103-111, before the override:
`meterData.length && meterData.map(m => m.measurementType).every(t =>
[NET_CONSUMPTION_METER, PRODUCTION_METER].includes(t))`. -/
def isMeteredOf (meterData : List Meter) : Bool :=
  (meterData.length != 0) &&
    (meterData.map (fun m => m.measurementType)).all
      (fun t => [NET_CONSUMPTION_METER, PRODUCTION_METER].contains t)

/-- The metered branch (device.ts lines 145-186): fetch the meter readings,
join both meters by `eid`, and either set the three power capabilities or
log the diagnostic.  An `Except.error` carries the thrown message together
with the device state at the throw. -/
def runMetered (st : DeviceState) (meterData : List Meter) (env : PollEnv) :
    Except (String × DeviceState) DeviceState :=
  match env.meterReadings with
  | Except.error e => Except.error (e, st)
  | Except.ok meterReadingsData =>
    let productionPower :=
      activePowerOrNull PRODUCTION_METER meterData meterReadingsData
    let gridConsumptionPower :=
      activePowerOrNull NET_CONSUMPTION_METER meterData meterReadingsData
    match productionPower, gridConsumptionPower with
    | some p, some g =>
      let selfConsumption := p + g
      let st := { st with measurePower := some p }
      let st := logMsg st ("Current production power is " ++ toString p ++ "W")
      let st := { st with consumptionPower := some selfConsumption }
      let st := { st with gridPower := some g }
      Except.ok st
    | _, _ =>
      Except.ok (logMsg st missingJoinMsg)

/-- The unmetered branch (device.ts lines 126-143).  `let currentPower = 0;
if (JSON) { currentPower = productionData.production[0].wNow; }` — the global
`JSON` object is always truthy, so the assignment always runs; indexing an
empty `production` array makes `.wNow` throw a TypeError, which the
surrounding try/catch turns into an unavailability message. -/
def runUnmetered (st : DeviceState) (productionData : ProductionData) :
    Except (String × DeviceState) DeviceState :=
  match productionData.production.head? with
  | none =>
    Except.error ("Cannot read properties of undefined (reading 'wNow')", st)
  | some entry =>
    let currentPower := entry.wNow
    let st := { st with measurePower := some currentPower }
    let st := logMsg st ("Current production power is " ++ toString currentPower ++ "W")
    let st := { st with consumptionPower := some 0 }
    let st := { st with gridPower := some 0 }
    Except.ok st

/-- The body of the try block from the production-report fetch on
(device.ts lines 117-186), parameterised by the `isMetered` value in force
after line 114: fetch the production report, set `meter_power` to the
constant 0 (line 122), then run the unmetered branch when `!isMetered` and
the metered branch when `isMetered`. -/
def checkProductionAfterOverride (st : DeviceState) (isMetered : Bool)
    (meterData : List Meter) (env : PollEnv) :
    Except (String × DeviceState) DeviceState :=
  match env.productionData with
  | Except.error e => Except.error (e, st)
  | Except.ok productionData =>
    let st := logMsg st "productionData"
    let currentEnergy : Int := 0
    let st := { st with meterPower := some currentEnergy }
    let st := logMsg st ("Current production energy is " ++ toString currentEnergy ++ "kWh")
    match (if !isMetered then runUnmetered st productionData else Except.ok st) with
    | Except.error e => Except.error e
    | Except.ok st =>
      if isMetered then runMetered st meterData env else Except.ok st

/-- The whole try block of `checkProduction` (device.ts lines 98-188):
fetch the meter list, compute `isMetered`, override it to `false`
(line 114), and continue. -/
def checkProductionTry (st : DeviceState) (env : PollEnv) :
    Except (String × DeviceState) DeviceState :=
  match env.meters with
  | Except.error e => Except.error (e, st)
  | Except.ok meterData =>
    let st := logMsg st "meterData"
    let isMetered := isMeteredOf meterData
    let isMetered := false
    checkProductionAfterOverride st isMetered meterData env

/-- `checkProduction` (device.ts lines 80-200): log, run the try block when
the api client exists, then `setAvailable` on success or the catch block
(log and `setUnavailable` with the thrown message) on failure. -/
def checkProduction (st0 : DeviceState) (hasApi : Bool) (env : PollEnv) :
    DeviceState :=
  let st := logMsg st0 "Checking production"
  if hasApi then
    match checkProductionTry st env with
    | Except.ok st1 => setAvailable st1
    | Except.error (msg, st1) => setUnavailable (logMsg st1 ("Unavailable: " ++ msg)) msg
  else
    setUnavailable st "Enphase Envoy could not be discovered on your network"

/-- `checkProduction` with the line-114 override `isMetered = false` removed,
so the metered branch of the source (device.ts lines 145-186) is reachable
and its behaviour can be stated; every other line is as in
`checkProduction`. -/
def checkProductionNoOverride (st0 : DeviceState) (hasApi : Bool)
    (env : PollEnv) : DeviceState :=
  let st := logMsg st0 "Checking production"
  if hasApi then
    match (match env.meters with
           | Except.error e => Except.error (e, st)
           | Except.ok meterData =>
             let st := logMsg st "meterData"
             let isMetered := isMeteredOf meterData
             checkProductionAfterOverride st isMetered meterData env) with
    | Except.ok st1 => setAvailable st1
    | Except.error (msg, st1) => setUnavailable (logMsg st1 ("Unavailable: " ++ msg)) msg
  else
    setUnavailable st "Enphase Envoy could not be discovered on your network"

/-! Theorems.  Helper lemmas first, then one theorem per claim. -/

/-- `getAccessToken` never changes the stored address. -/
theorem getAccessToken_address (st : ClientState) (r : AuthResponses) :
    (getAccessToken st r).2.address = st.address := by
  unfold getAccessToken getEnphaseSessionId
  cases h1 : r.login.ok <;> cases h2 : r.token.ok <;> cases h3 : r.jwt.ok <;>
    simp [h1, h2, h3]

/-- A retried call (`isRetry = true`) issues exactly one request and never
re-authenticates. -/
theorem fetchApiEndpointAux_retry_bound (st : ClientState) (auth : AuthResponses)
    (responses : List NetResult) (h : st.address.isNone = false) :
    (fetchApiEndpointAux st auth responses true).fetchCalls = 1 ∧
    (fetchApiEndpointAux st auth responses true).authCalls = 0 := by
  unfold fetchApiEndpointAux
  cases responses with
  | nil => simp [h]
  | cons r rest =>
    cases r with
    | error e => simp [h]
    | ok resp =>
      cases h2 : statusOk resp.status <;> simp [h, h2]

/-- C1.  Amended: `getAccessToken` replaces `sessionId` only when all three
protocol steps succeed, and a failure at the cloud login or the token
exchange leaves both secrets untouched; but `accessToken` is overwritten as
soon as the token exchange succeeds, so a failure at the gateway JWT check
leaves `sessionId` as it was while `accessToken` already holds the fresh
token. -/
theorem getAccessToken_secret_update (st : ClientState) (r : AuthResponses) :
    (¬ (r.login.ok = true ∧ r.token.ok = true) → (getAccessToken st r).2 = st) ∧
    ((getAccessToken st r).2.sessionId ≠ st.sessionId →
      (getAccessToken st r).1 = Except.ok ()) ∧
    (r.login.ok = true → r.token.ok = true → r.jwt.ok = false →
      (getAccessToken st r).1 = Except.error tokenFailedMsg ∧
      (getAccessToken st r).2.sessionId = st.sessionId ∧
      (getAccessToken st r).2.accessToken = some r.token.text) := by
  unfold getAccessToken getEnphaseSessionId
  cases h1 : r.login.ok <;> cases h2 : r.token.ok <;> cases h3 : r.jwt.ok <;>
    simp [h1, h2, h3]

/-- C1, counterexample to the claim as stated: with the stored secrets
`oldTok`/`oldCookie`, a run whose cloud login and token exchange succeed but
whose gateway JWT check answers 500 fails — yet the stored bearer token is no
longer what it was before the call. -/
theorem getAccessToken_jwt_failure_mutates_token :
    (getAccessToken ⟨some "1.2.3.4", "sn", "user", "pw", some "oldTok", some "oldCookie"⟩
        ⟨⟨200, "sid"⟩, ⟨200, "newTok"⟩, ⟨500, none⟩⟩).1 = Except.error tokenFailedMsg ∧
    (getAccessToken ⟨some "1.2.3.4", "sn", "user", "pw", some "oldTok", some "oldCookie"⟩
        ⟨⟨200, "sid"⟩, ⟨200, "newTok"⟩, ⟨500, none⟩⟩).2.accessToken ≠ some "oldTok" := by
  exact ⟨rfl, by decide⟩

/-- C7.  Amended: when the cloud steps have succeeded, a gateway JWT check
that rejects the token makes `getAccessToken` throw; but when the gateway
accepts the token, the call succeeds even if the `sessionId` cookie cannot be
parsed from the Set-Cookie header — the stored `sessionId` is then simply
whatever the regex produced, absence included. -/
theorem getAccessToken_jwt_check (st : ClientState) (r : AuthResponses)
    (h1 : r.login.ok = true) (h2 : r.token.ok = true) :
    (r.jwt.ok = false → (getAccessToken st r).1 = Except.error tokenFailedMsg) ∧
    (r.jwt.ok = true → (getAccessToken st r).1 = Except.ok () ∧
      (getAccessToken st r).2.sessionId = extractSessionId r.jwt.setCookie) := by
  unfold getAccessToken getEnphaseSessionId
  cases h3 : r.jwt.ok <;> simp [h1, h2, h3]

/-- C7, witness: a concrete run whose gateway JWT check answers 500 throws
the access-token error. -/
theorem getAccessToken_jwt_check_witness :
    (getAccessToken ⟨some "gw", "sn", "u", "p", none, none⟩
        ⟨⟨200, "sid"⟩, ⟨200, "tok"⟩, ⟨500, none⟩⟩).1 = Except.error tokenFailedMsg :=
  (getAccessToken_jwt_check ⟨some "gw", "sn", "u", "p", none, none⟩
      ⟨⟨200, "sid"⟩, ⟨200, "tok"⟩, ⟨500, none⟩⟩ (by decide) (by decide)).1 (by decide)

/-- C7, counterexample to the claim as stated: the gateway accepts the token
(status 200) but its Set-Cookie header contains no `sessionId=<value>;`
pattern — the call nevertheless succeeds (no error of any kind) and stores an
absent `sessionId`. -/
theorem unparsed_cookie_no_error :
    (getAccessToken ⟨some "gw", "sn", "u", "p", none, some "oldCookie"⟩
        ⟨⟨200, "sid"⟩, ⟨200, "tok"⟩, ⟨200, some "no cookie in this header"⟩⟩).1 =
      Except.ok () ∧
    (getAccessToken ⟨some "gw", "sn", "u", "p", none, some "oldCookie"⟩
        ⟨⟨200, "sid"⟩, ⟨200, "tok"⟩, ⟨200, some "no cookie in this header"⟩⟩).2.sessionId =
      none := by
  exact ⟨rfl, rfl⟩

/-- C4.  The pre-override `isMetered` value is true exactly when the meter
list is non-empty and every entry's measurement type is net-consumption or
production; in particular it is true for a production + net-consumption
list, false for a single `other` meter and false for the empty list. -/
theorem isMeteredOf_spec (meterData : List Meter) :
    (isMeteredOf meterData = true ↔
      meterData ≠ [] ∧ ∀ m ∈ meterData,
        m.measurementType = NET_CONSUMPTION_METER ∨
        m.measurementType = PRODUCTION_METER) ∧
    isMeteredOf [⟨1, PRODUCTION_METER⟩, ⟨2, NET_CONSUMPTION_METER⟩] = true ∧
    isMeteredOf [⟨1, "other"⟩] = false ∧
    isMeteredOf [] = false := by
  refine ⟨?_, rfl, rfl, rfl⟩
  unfold isMeteredOf
  simp [List.all_eq_true, List.length_eq_zero]

/-- C2.  Amended: a `fetchApiEndpoint` call whose first response has a
client-error status (400-499) performs exactly one `getAccessToken` call;
when that re-authentication succeeds it retries the request exactly once
(two requests in total) and a non-2xx status on the retry makes the call
throw with no further re-authentication or retry; when the
re-authentication itself throws, its error propagates and no retry is
issued at all. -/
theorem fetchApiEndpoint_retry_policy (st : ClientState) (auth : AuthResponses)
    (response : DataResponse) (rest : List NetResult)
    (haddr : st.address.isNone = false)
    (h4 : 400 ≤ response.status) (h5 : response.status < 500) :
    (fetchApiEndpoint st auth (Except.ok response :: rest)).authCalls = 1 ∧
    ((getAccessToken st auth).1 = Except.ok () →
      (fetchApiEndpoint st auth (Except.ok response :: rest)).fetchCalls = 2 ∧
      ∀ r2 rest2, rest = Except.ok r2 :: rest2 → statusOk r2.status = false →
        ∃ msg, (fetchApiEndpoint st auth (Except.ok response :: rest)).result =
          Except.error msg) ∧
    (∀ e, (getAccessToken st auth).1 = Except.error e →
      (fetchApiEndpoint st auth (Except.ok response :: rest)).fetchCalls = 1 ∧
      (fetchApiEndpoint st auth (Except.ok response :: rest)).result =
        Except.error e) := by
  have haddr1 : (getAccessToken st auth).2.address.isNone = false := by
    rw [getAccessToken_address]; exact haddr
  have hcond : (400 ≤ response.status && response.status < 500 && !false) = true := by
    simp [h4, h5]
  unfold fetchApiEndpoint fetchApiEndpointAux
  rcases hga : getAccessToken st auth with ⟨res, st1⟩
  cases res with
  | error e =>
    simp only [haddr, Bool.false_eq_true, if_false, hcond, if_true, hga]
    refine ⟨by trivial, ?_, ?_⟩
    · intro hok; exact absurd hok (by simp)
    · intro e' he'
      have : e' = e := by simpa using he'.symm
      subst this
      exact ⟨by trivial, by trivial⟩
  | ok u =>
    cases u
    have hb := fetchApiEndpointAux_retry_bound st1 auth rest
      (by rw [show st1 = (getAccessToken st auth).2 from by rw [hga]]; exact haddr1)
    simp only [haddr, Bool.false_eq_true, if_false, hcond, if_true, hga]
    refine ⟨by omega, ?_, ?_⟩
    · intro _
      refine ⟨by omega, ?_⟩
      intro r2 rest2 hrest hst
      subst hrest
      unfold fetchApiEndpointAux
      have : st1.address.isNone = false := by
        rw [show st1 = (getAccessToken st auth).2 from by rw [hga]]; exact haddr1
      simp [this, hst]
    · intro e' he'
      exact absurd he' (by simp)

/-- C2, witness: a first 401 answer triggers exactly one `getAccessToken`
call on a concrete client. -/
theorem fetchApiEndpoint_retry_policy_witness :
    (fetchApiEndpoint ⟨some "gw", "sn", "u", "p", none, none⟩
        ⟨⟨200, "sid"⟩, ⟨200, "tok"⟩, ⟨200, some "sessionId=s;"⟩⟩
        [Except.ok ⟨401⟩, Except.ok ⟨200⟩]).authCalls = 1 :=
  (fetchApiEndpoint_retry_policy ⟨some "gw", "sn", "u", "p", none, none⟩
      ⟨⟨200, "sid"⟩, ⟨200, "tok"⟩, ⟨200, some "sessionId=s;"⟩⟩ ⟨401⟩
      [Except.ok ⟨200⟩] rfl (by decide) (by decide)).1

/-- C2, counterexample to the claim as stated: the first response is 401, so
the client re-authenticates — but the cloud login answers 500, the
re-authentication throws, and the request is never retried (one single fetch
went out, not two), even though the gateway would have answered the retry
with 200. -/
theorem first_4xx_failing_reauth_no_retry :
    (fetchApiEndpoint ⟨some "gw", "sn", "u", "p", none, none⟩
        ⟨⟨500, "sid"⟩, ⟨200, "tok"⟩, ⟨200, none⟩⟩
        [Except.ok ⟨401⟩, Except.ok ⟨200⟩]).authCalls = 1 ∧
    (fetchApiEndpoint ⟨some "gw", "sn", "u", "p", none, none⟩
        ⟨⟨500, "sid"⟩, ⟨200, "tok"⟩, ⟨200, none⟩⟩
        [Except.ok ⟨401⟩, Except.ok ⟨200⟩]).fetchCalls = 1 ∧
    (fetchApiEndpoint ⟨some "gw", "sn", "u", "p", none, none⟩
        ⟨⟨500, "sid"⟩, ⟨200, "tok"⟩, ⟨200, none⟩⟩
        [Except.ok ⟨401⟩, Except.ok ⟨200⟩]).result = Except.error loginFailedMsg := by
  exact ⟨rfl, rfl, rfl⟩

/-- C3.  After the unconditional `isMetered = false` override, no poll ever
reads the meter-readings endpoint (the poll result is the same whatever that
fetch would return), and every successful poll took the unmetered path,
whose signature is consumption and grid power forced to zero. -/
theorem checkProduction_always_unmetered (st : DeviceState) (hasApi : Bool)
    (env : PollEnv) :
    (∀ rs, checkProduction st hasApi { env with meterReadings := rs } =
      checkProduction st hasApi env) ∧
    ((checkProduction st hasApi env).available = true →
      (checkProduction st hasApi env).consumptionPower = some 0 ∧
      (checkProduction st hasApi env).gridPower = some 0) := by
  rcases env with ⟨ms, pd, rs0⟩
  constructor
  · intro rs
    cases hasApi <;>
      cases ms <;>
        simp [checkProduction, checkProductionTry, checkProductionAfterOverride]
  · cases hasApi with
    | false => simp [checkProduction, setUnavailable]
    | true =>
      cases ms with
      | error e => simp [checkProduction, checkProductionTry, setUnavailable]
      | ok md =>
        cases pd with
        | error e =>
          simp [checkProduction, checkProductionTry, checkProductionAfterOverride,
            setUnavailable]
        | ok productionData =>
          cases hd : productionData.production with
          | nil =>
            simp [checkProduction, checkProductionTry, checkProductionAfterOverride,
              runUnmetered, hd, setUnavailable]
          | cons e rest =>
            simp [checkProduction, checkProductionTry, checkProductionAfterOverride,
              runUnmetered, hd, setAvailable, logMsg]

/-- C5.  A poll whose meter-list and production-report fetches succeed and
whose report has a first production entry succeeds, reports that entry's
`wNow` as the production power, forces consumption and grid power to zero,
and reports a cumulative energy of zero whatever the report holds. -/
theorem checkProduction_unmetered_readings (st : DeviceState) (env : PollEnv)
    (md : List Meter) (pd : ProductionData) (e : ProductionEntry)
    (rest : List ProductionEntry)
    (hm : env.meters = Except.ok md)
    (hp : env.productionData = Except.ok pd)
    (hw : pd.production = e :: rest) :
    (checkProduction st true env).available = true ∧
    (checkProduction st true env).measurePower = some e.wNow ∧
    (checkProduction st true env).consumptionPower = some 0 ∧
    (checkProduction st true env).gridPower = some 0 ∧
    (checkProduction st true env).meterPower = some 0 := by
  simp [checkProduction, checkProductionTry, checkProductionAfterOverride,
    runUnmetered, hm, hp, hw, setAvailable, logMsg]

/-- C5, witness: the production report whose only entry carries `wNow = 842`
yields production power 842, consumption 0, grid 0, energy 0, available. -/
theorem checkProduction_unmetered_readings_witness :
    (checkProduction ⟨none, none, none, none, false, none, []⟩ true
        ⟨Except.ok [], Except.ok ⟨[⟨842⟩]⟩, Except.ok []⟩).available = true ∧
    (checkProduction ⟨none, none, none, none, false, none, []⟩ true
        ⟨Except.ok [], Except.ok ⟨[⟨842⟩]⟩, Except.ok []⟩).measurePower = some 842 ∧
    (checkProduction ⟨none, none, none, none, false, none, []⟩ true
        ⟨Except.ok [], Except.ok ⟨[⟨842⟩]⟩, Except.ok []⟩).consumptionPower = some 0 ∧
    (checkProduction ⟨none, none, none, none, false, none, []⟩ true
        ⟨Except.ok [], Except.ok ⟨[⟨842⟩]⟩, Except.ok []⟩).gridPower = some 0 ∧
    (checkProduction ⟨none, none, none, none, false, none, []⟩ true
        ⟨Except.ok [], Except.ok ⟨[⟨842⟩]⟩, Except.ok []⟩).meterPower = some 0 :=
  checkProduction_unmetered_readings ⟨none, none, none, none, false, none, []⟩
    ⟨Except.ok [], Except.ok ⟨[⟨842⟩]⟩, Except.ok []⟩ [] ⟨[⟨842⟩]⟩ ⟨842⟩ [] rfl rfl rfl

/-- C6.  Whenever the try block of a poll throws (a Session Client failure at
any step), the poll ends unavailable and the message passed to
`setUnavailable` is the thrown message, unchanged. -/
theorem checkProduction_failure_propagates (st : DeviceState) (env : PollEnv)
    (msg : String) (st1 : DeviceState)
    (h : checkProductionTry (logMsg st "Checking production") env =
      Except.error (msg, st1)) :
    (checkProduction st true env).available = false ∧
    (checkProduction st true env).errorMessage = some msg := by
  simp [checkProduction, h, setUnavailable]

/-- C6, witness: a meter-list fetch that throws "boom" leaves the device
unavailable with exactly the message "boom". -/
theorem checkProduction_failure_propagates_witness :
    (checkProduction ⟨none, none, none, none, true, none, []⟩ true
        ⟨Except.error "boom", Except.ok ⟨[]⟩, Except.ok []⟩).available = false ∧
    (checkProduction ⟨none, none, none, none, true, none, []⟩ true
        ⟨Except.error "boom", Except.ok ⟨[]⟩, Except.ok []⟩).errorMessage = some "boom" :=
  checkProduction_failure_propagates ⟨none, none, none, none, true, none, []⟩
    ⟨Except.error "boom", Except.ok ⟨[]⟩, Except.ok []⟩ "boom"
    ⟨none, none, none, none, true, none, ["Checking production"]⟩ rfl

/-- C8.  In the metered branch, whenever both eid-join lookups produce an
active power, the branch reports production = productionPower, grid =
gridConsumptionPower and consumption = productionPower +
gridConsumptionPower (signed addition). -/
theorem runMetered_self_consumption (st : DeviceState) (md : List Meter)
    (env : PollEnv) (rs : List MeterReading) (p g : Int)
    (hr : env.meterReadings = Except.ok rs)
    (hp : activePowerOrNull PRODUCTION_METER md rs = some p)
    (hg : activePowerOrNull NET_CONSUMPTION_METER md rs = some g) :
    ∃ st1, runMetered st md env = Except.ok st1 ∧
      st1.measurePower = some p ∧
      st1.consumptionPower = some (p + g) ∧
      st1.gridPower = some g := by
  unfold runMetered
  rw [hr]
  simp only [hp, hg]
  exact ⟨_, rfl, rfl, rfl, rfl⟩

/-- C8, witness: productionPower 500 and gridConsumptionPower -120 yield a
self-consumption of 380, with 500 reported as production and -120 as grid. -/
theorem runMetered_self_consumption_witness :
    ∃ st1, runMetered ⟨none, none, none, none, false, none, []⟩
        [⟨1, PRODUCTION_METER⟩, ⟨2, NET_CONSUMPTION_METER⟩]
        ⟨Except.ok [], Except.ok ⟨[]⟩, Except.ok [⟨1, 500⟩, ⟨2, -120⟩]⟩ =
      Except.ok st1 ∧
      st1.measurePower = some 500 ∧
      st1.consumptionPower = some 380 ∧
      st1.gridPower = some (-120) :=
  runMetered_self_consumption ⟨none, none, none, none, false, none, []⟩
    [⟨1, PRODUCTION_METER⟩, ⟨2, NET_CONSUMPTION_METER⟩]
    ⟨Except.ok [], Except.ok ⟨[]⟩, Except.ok [⟨1, 500⟩, ⟨2, -120⟩]⟩
    [⟨1, 500⟩, ⟨2, -120⟩] 500 (-120) rfl rfl rfl

/-- Whenever either eid-join lookup misses, the metered branch only logs the
diagnostic, whatever the device state. -/
theorem runMetered_missing_join (md : List Meter) (env : PollEnv)
    (rs : List MeterReading)
    (hr : env.meterReadings = Except.ok rs)
    (hmiss : activePowerOrNull PRODUCTION_METER md rs = none ∨
             activePowerOrNull NET_CONSUMPTION_METER md rs = none) :
    ∀ s, runMetered s md env = Except.ok (logMsg s missingJoinMsg) := by
  intro s
  unfold runMetered
  rw [hr]
  rcases hpp : activePowerOrNull PRODUCTION_METER md rs with _ | p
  · rcases hgg : activePowerOrNull NET_CONSUMPTION_METER md rs with _ | g <;>
      simp only [hpp, hgg]
  · rcases hgg : activePowerOrNull NET_CONSUMPTION_METER md rs with _ | g
    · simp only [hpp, hgg]
    · exfalso
      rcases hmiss with h | h
      · rw [hpp] at h; exact Option.noConfusion h
      · rw [hgg] at h; exact Option.noConfusion h

/-- C9.  A metered poll (override removed, metering decision true) whose
fetches succeed but whose eid join misses either meter's active power still
ends available, leaves the production, consumption and grid readings exactly
as they were, and logs the diagnostic. -/
theorem metered_missing_join_keeps_available (st : DeviceState) (env : PollEnv)
    (md : List Meter) (pd : ProductionData) (rs : List MeterReading)
    (hm : env.meters = Except.ok md)
    (hmet : isMeteredOf md = true)
    (hp : env.productionData = Except.ok pd)
    (hr : env.meterReadings = Except.ok rs)
    (hmiss : activePowerOrNull PRODUCTION_METER md rs = none ∨
             activePowerOrNull NET_CONSUMPTION_METER md rs = none) :
    (checkProductionNoOverride st true env).available = true ∧
    (checkProductionNoOverride st true env).measurePower = st.measurePower ∧
    (checkProductionNoOverride st true env).consumptionPower = st.consumptionPower ∧
    (checkProductionNoOverride st true env).gridPower = st.gridPower ∧
    missingJoinMsg ∈ (checkProductionNoOverride st true env).logs := by
  simp [checkProductionNoOverride, checkProductionAfterOverride, hm, hmet, hp,
    runMetered_missing_join md env rs hr hmiss, setAvailable, logMsg]

/-- C9, witness: production and net-consumption meters with an empty
readings list — the poll stays available, no power reading moves, the
diagnostic is logged. -/
theorem metered_missing_join_keeps_available_witness :
    (checkProductionNoOverride ⟨none, some 7, some 8, some 9, false, none, []⟩ true
        ⟨Except.ok [⟨1, PRODUCTION_METER⟩, ⟨2, NET_CONSUMPTION_METER⟩],
          Except.ok ⟨[]⟩, Except.ok []⟩).available = true ∧
    (checkProductionNoOverride ⟨none, some 7, some 8, some 9, false, none, []⟩ true
        ⟨Except.ok [⟨1, PRODUCTION_METER⟩, ⟨2, NET_CONSUMPTION_METER⟩],
          Except.ok ⟨[]⟩, Except.ok []⟩).measurePower = some 7 ∧
    (checkProductionNoOverride ⟨none, some 7, some 8, some 9, false, none, []⟩ true
        ⟨Except.ok [⟨1, PRODUCTION_METER⟩, ⟨2, NET_CONSUMPTION_METER⟩],
          Except.ok ⟨[]⟩, Except.ok []⟩).consumptionPower = some 8 ∧
    (checkProductionNoOverride ⟨none, some 7, some 8, some 9, false, none, []⟩ true
        ⟨Except.ok [⟨1, PRODUCTION_METER⟩, ⟨2, NET_CONSUMPTION_METER⟩],
          Except.ok ⟨[]⟩, Except.ok []⟩).gridPower = some 9 ∧
    missingJoinMsg ∈ (checkProductionNoOverride ⟨none, some 7, some 8, some 9, false, none, []⟩
        true ⟨Except.ok [⟨1, PRODUCTION_METER⟩, ⟨2, NET_CONSUMPTION_METER⟩],
          Except.ok ⟨[]⟩, Except.ok []⟩).logs :=
  metered_missing_join_keeps_available ⟨none, some 7, some 8, some 9, false, none, []⟩
    ⟨Except.ok [⟨1, PRODUCTION_METER⟩, ⟨2, NET_CONSUMPTION_METER⟩],
      Except.ok ⟨[]⟩, Except.ok []⟩
    [⟨1, PRODUCTION_METER⟩, ⟨2, NET_CONSUMPTION_METER⟩] ⟨[]⟩ [] rfl rfl rfl rfl
    (Or.inl rfl)

/-- C10.  In the metered-branch eid join, a matching reading whose
`activePower` is exactly 0 is coerced to null by `|| null`: the lookup
counts as missing and the branch takes the missing-join path (log only)
instead of reporting the zero. -/
theorem zero_active_power_treated_missing (st : DeviceState) (md : List Meter)
    (env : PollEnv) (rs : List MeterReading) (r : MeterReading)
    (hr : env.meterReadings = Except.ok rs)
    (hfind : findReading PRODUCTION_METER md rs = some r)
    (hzero : r.activePower = 0) :
    activePowerOrNull PRODUCTION_METER md rs = none ∧
    runMetered st md env = Except.ok (logMsg st missingJoinMsg) := by
  have hnull : activePowerOrNull PRODUCTION_METER md rs = none := by
    unfold activePowerOrNull
    rw [hfind]
    simp [hzero]
  refine ⟨hnull, ?_⟩
  unfold runMetered
  rw [hr]
  rcases hgg : activePowerOrNull NET_CONSUMPTION_METER md rs with _ | g <;>
    simp only [hnull, hgg]

/-- C10, witness: a production meter whose matched reading carries
activePower 0 — the lookup is missing and the metered branch only logs the
diagnostic. -/
theorem zero_active_power_treated_missing_witness :
    activePowerOrNull PRODUCTION_METER [⟨1, PRODUCTION_METER⟩] [⟨1, 0⟩] = none ∧
    runMetered ⟨none, none, none, none, false, none, []⟩ [⟨1, PRODUCTION_METER⟩]
        ⟨Except.ok [], Except.ok ⟨[]⟩, Except.ok [⟨1, 0⟩]⟩ =
      Except.ok (logMsg ⟨none, none, none, none, false, none, []⟩ missingJoinMsg) :=
  zero_active_power_treated_missing ⟨none, none, none, none, false, none, []⟩
    [⟨1, PRODUCTION_METER⟩] ⟨Except.ok [], Except.ok ⟨[]⟩, Except.ok [⟨1, 0⟩]⟩
    [⟨1, 0⟩] ⟨1, 0⟩ rfl rfl rfl
